import Mathlib

/-!
Shallow embedding of `src/rdkafka_impl.rs` from the kafcat repository:
offset resolution (`set_offset`), the consumption pipeline (`for_each`,
`stream`), message conversion (`process`) and the producer (`write_one`).

Machine integers (`i64`, `i32`) are modelled as `Int`; byte buffers
(`Vec<u8>`, `&[u8]`) as `List Nat`.  The underlying rdkafka engine is
modelled as an oracle (`Broker`, a send oracle, a timed event trace);
a Rust `panic!`/`unwrap()` on `None` is modelled by the `PanicOr.panicked`
outcome, distinct from a returned error.
-/

namespace Kafcat

/-- Byte buffers (`Vec<u8>`). -/
abbrev Bytes := List Nat

/-- Result type mirroring Rust `Result<α, ε>` (used instead of `Except`
    so that equality is decidable by `decide`). -/
inductive Res (ε α : Type) where
  | ok (a : α)
  | err (e : ε)
deriving DecidableEq, Repr

/-- Outcome of running code that may `panic!` (an `unwrap()` on `None` /
    `expect`), as opposed to returning normally. -/
inductive PanicOr (α : Type) where
  | ok (a : α)
  | panicked
deriving DecidableEq, Repr

/-- Engine-level error (`rdkafka::error::KafkaError`), abstracted to a code. -/
structure KafkaError where
  code : Nat
deriving DecidableEq, Repr

/-- System error type (`KafcatError`, from `error.rs`): engine errors are
    wrapped via `anyhow::Error::from`; handler errors are the caller's. -/
inductive KafcatError where
  | fromKafka (e : KafkaError)
  | handlerFail (code : Nat)
deriving DecidableEq, Repr

/-- `KafkaOffset` (from `configs.rs`, as matched in `set_offset`):
    user-facing offset specification. -/
inductive KafkaOffset where
  | Beginning
  | End
  | Stored
  | Offset (o : Int)
  | OffsetInterval (b e : Int)
  | TimeInterval (b e : Int)
deriving DecidableEq, Repr

/-- `rdkafka::Offset`: concrete offset understood by the broker.
    `Beginning`, `End`, `Stored` are the broker's fixed sentinels. -/
inductive Offset where
  | Beginning
  | End
  | Stored
  | Offset (o : Int)
  | OffsetTail (o : Int)
deriving DecidableEq, Repr

/-- One entry of a `rdkafka::TopicPartitionList`. -/
structure TplEntry where
  topic : String
  partition : Int
  offset : Offset
deriving DecidableEq, Repr

/-- `TopicPartitionList::find_partition`. -/
def find_partition (tpl : List TplEntry) (topic : String) (partition : Int) :
    Option TplEntry :=
  tpl.find? (fun e => e.topic == topic && e.partition == partition)

/-- A recorded `offsets_for_times` broker round-trip: the request list and
    the timeout in seconds it was issued with. -/
structure BrokerCall where
  tpl : List TplEntry
  timeoutSecs : Nat
deriving DecidableEq, Repr

/-- The underlying engine's broker-facing operations used by `set_offset`:
    `offsets_for_times` and `assign` results are supplied by this oracle. -/
structure Broker where
  offsetsForTimes : List TplEntry → Nat → Res KafkaError (List TplEntry)
  assignResult : List TplEntry → Res KafkaError Unit

/-- `KafkaConsumerConfig` (from `configs.rs`), the fields `set_offset` and
    `for_each` read: topic, optional partition, group, brokers, and the
    exit-on-done flag selecting the idle-timeout duration. -/
structure KafkaConsumerConfig where
  group_id : String
  brokers : String
  topic : String
  partition : Option Int
  exit_on_done : Bool
deriving DecidableEq, Repr

/-- `KafkaProducerConfig` (from `configs.rs`), the fields `write_one` reads. -/
structure KafkaProducerConfig where
  brokers : String
  topic : String
deriving DecidableEq, Repr

/-- Broker-side consumer state: the current partition assignment
    (`None` before any successful `assign`). -/
structure ConsumerState where
  assignment : Option (List TplEntry)
deriving DecidableEq, Repr

/-- `rdkafka::Timestamp` of an engine message. -/
inductive Timestamp where
  | NotAvailable
  | CreateTime (ms : Int)
  | LogAppendTime (ms : Int)
deriving DecidableEq, Repr

/-- `Timestamp::to_millis`: `None` exactly when the timestamp is unavailable. -/
def Timestamp.to_millis : Timestamp → Option Int
  | .NotAvailable => none
  | .CreateTime ms => some ms
  | .LogAppendTime ms => some ms

/-- An engine message (`BorrowedMessage` after `detach`): rdkafka exposes an
    optional key, optional payload, a timestamp, and record headers. -/
structure EngineMessage where
  key : Option Bytes
  payload : Option Bytes
  timestamp : Timestamp
  headers : List (String × Bytes)
deriving DecidableEq, Repr

/-- `RdkafkaMessage` (lines 187-191): the system's message model. -/
structure RdkafkaMessage where
  key : Bytes
  payload : Bytes
  timestamp : Int
deriving DecidableEq, Repr

/-- `CustomMessage::get_key` for `RdkafkaMessage`. -/
def RdkafkaMessage.get_key (m : RdkafkaMessage) : Bytes := m.key

/-- `CustomMessage::get_payload` for `RdkafkaMessage`. -/
def RdkafkaMessage.get_payload (m : RdkafkaMessage) : Bytes := m.payload

/-- `CustomMessage::get_timestamp` for `RdkafkaMessage`. -/
def RdkafkaMessage.get_timestamp (m : RdkafkaMessage) : Int := m.timestamp

/-- `process_err` (line 142): wrap an engine error into the system error. -/
def process_err (x : KafkaError) : KafcatError := .fromKafka x

/-- `process` (lines 143-150): convert an engine message into the system
    message.  `msg.key().map(Vec::from).unwrap_or(vec![])` turns an absent
    key into the empty buffer (likewise the payload);
    `msg.timestamp().to_millis().unwrap()` panics when the timestamp is
    unavailable. -/
def process (x : EngineMessage) : PanicOr RdkafkaMessage :=
  match x.timestamp.to_millis with
  | none => .panicked
  | some ts => .ok ⟨x.key.getD [], x.payload.getD [], ts⟩

/-- Offset resolution, the `match offset` of `set_offset` (lines 73-96):
    translate a `KafkaOffset` into a concrete `rdkafka::Offset`, together
    with the list of `offsets_for_times` round-trips issued.  For
    `TimeInterval(b, _)` a single-partition request keyed by timestamp `b`
    is issued with a 1-second timeout; `find_partition(..).unwrap()` on the
    response panics when the partition is missing from it. -/
def resolveOffset (broker : Broker) (topic : String) (partition : Int) :
    KafkaOffset → PanicOr (Res KafcatError Offset) × List BrokerCall
  | .Beginning => (.ok (.ok .Beginning), [])
  | .End => (.ok (.ok .End), [])
  | .Stored => (.ok (.ok .Stored), [])
  | .Offset o =>
      if o ≥ 0 then (.ok (.ok (.Offset o)), [])
      else (.ok (.ok (.OffsetTail (-o - 1))), [])
  | .OffsetInterval b _ => (.ok (.ok (.Offset b)), [])
  | .TimeInterval b _ =>
      let tplB : List TplEntry := [⟨topic, partition, .Offset b⟩]
      let calls : List BrokerCall := [⟨tplB, 1⟩]
      match broker.offsetsForTimes tplB 1 with
      | .err e => (.ok (.err (.fromKafka e)), calls)
      | .ok tplB' =>
          match find_partition tplB' topic partition with
          | none => (.panicked, calls)
          | some entry => (.ok (.ok entry.offset), calls)

/-- Result of a `set_offset` call: the consumer state afterwards, the
    call's outcome, and the broker round-trips issued during resolution. -/
structure SetOffsetOut where
  state : ConsumerState
  result : PanicOr (Res KafcatError Unit)
  calls : List BrokerCall
deriving Repr

/-- `set_offset` (lines 68-101): resolve the offset specification, then
    build a fresh one-entry `TopicPartitionList` for the configured
    topic/partition and `assign` it, replacing the consumer's previous
    broker-side assignment.  Resolution errors propagate before any
    assignment; `assign` semantics (replacement of the whole assignment)
    is the engine collaborator contract from the spec. -/
def set_offset (broker : Broker) (cfg : KafkaConsumerConfig)
    (st : ConsumerState) (offset : KafkaOffset) : SetOffsetOut :=
  let partition := cfg.partition.getD 0
  let topic := cfg.topic
  match resolveOffset broker topic partition offset with
  | (.panicked, calls) => ⟨st, .panicked, calls⟩
  | (.ok (.err e), calls) => ⟨st, .ok (.err e), calls⟩
  | (.ok (.ok off), calls) =>
      let tpl : List TplEntry := [⟨topic, partition, off⟩]
      match broker.assignResult tpl with
      | .err e => ⟨st, .ok (.err (.fromKafka e)), calls⟩
      | .ok _ => ⟨⟨some tpl⟩, .ok (.ok ()), calls⟩

/-- A timed event of the underlying engine's message stream: the idle gap
    in seconds since the previous item (or since polling began), and the
    item the engine yields (a message or a connection error). -/
abbrev TimedEvent := Nat × Res KafkaError EngineMessage

/-- Modelled from the spec: the idle-timeout stream adapter
    (`timeout_stream.rs`, not under `src/`).  Per the spec, a local timer
    ends the stream - as a normal end, not an error - when no message has
    arrived for the configured duration; items arriving within the window
    pass through unchanged. -/
def applyIdleTimeout (d : Nat) : List TimedEvent → List TimedEvent
  | [] => []
  | (gap, item) :: rest =>
      if gap > d then [] else (gap, item) :: applyIdleTimeout d rest

/-- `for_each` behind the timeout (lines 110-119): `try_for_each` over the
    (already timeout-cut) event list, converting each engine message with
    the inlined copy of `process` and stopping at the first stream error or
    handler error.  Exhausting the events (the idle-timeout end of stream)
    is the success terminal state. -/
def runForEach (func : RdkafkaMessage → Res KafcatError Unit) :
    List TimedEvent → PanicOr (Res KafcatError Unit)
  | [] => .ok (.ok ())
  | (_, .err e) :: _ => .ok (.err (process_err e))
  | (_, .ok m) :: rest =>
      match process m with
      | .panicked => .panicked
      | .ok msg =>
          match func msg with
          | .err e => .ok (.err e)
          | .ok _ => runForEach func rest

/-- `for_each` (lines 103-120): drive the engine stream under an idle
    timeout of 3 seconds when `exit_on_done` is set, 3600 seconds (1 hour)
    otherwise, invoking the handler per message. -/
def for_each (cfg : KafkaConsumerConfig) (events : List TimedEvent)
    (func : RdkafkaMessage → Res KafcatError Unit) :
    PanicOr (Res KafcatError Unit) :=
  runForEach func
    (applyIdleTimeout (if cfg.exit_on_done then 3 else 3600) events)

/-- `stream` (lines 122-128): the items yielded by the returned
    `RdkafkaStreamImpl`, i.e. the engine stream with errors mapped by
    `process_err` and messages by `process` - no timeout adapter is
    applied.  The finite event list is the engine activity in any
    observation window; a panic inside `process` (`map_ok`) aborts. -/
def streamItems : List TimedEvent → PanicOr (List (Res KafcatError RdkafkaMessage))
  | [] => .ok []
  | (_, .err e) :: rest =>
      match streamItems rest with
      | .panicked => .panicked
      | .ok items => .ok (.err (process_err e) :: items)
  | (_, .ok m) :: rest =>
      match process m with
      | .panicked => .panicked
      | .ok msg =>
          match streamItems rest with
          | .panicked => .panicked
          | .ok items => .ok (.ok msg :: items)

/-- Modelled from the spec: the stream item list the claim predicts for
    `stream()` - the same mapped items, but cut by the idle timeout `d`
    ("each underlying poll is subject to an idle timeout"). -/
def streamItemsClaimed (d : Nat) (events : List TimedEvent) :
    PanicOr (List (Res KafcatError RdkafkaMessage)) :=
  streamItems (applyIdleTimeout d events)

/-- A `FutureRecord` as built by `write_one`: destination topic and the
    optionally attached key and payload. -/
structure FutureRecord where
  topic : String
  key : Option Bytes
  payload : Option Bytes
deriving DecidableEq, Repr

/-- The record `write_one` builds (lines 173-181): addressed to the
    configured topic; key and payload attached only when non-empty. -/
def buildRecord (topic : String) (msg : RdkafkaMessage) : FutureRecord :=
  let record : FutureRecord := ⟨topic, none, none⟩
  let key := msg.get_key
  let record := if key.length > 0 then { record with key := some key } else record
  let payload := msg.get_payload
  if payload.length > 0 then { record with payload := some payload } else record

/-- A recorded `producer.send` dispatch: the record and the local queuing
    timeout in seconds. -/
structure SendCall where
  record : FutureRecord
  timeoutSecs : Nat
deriving DecidableEq, Repr

/-- `write_one` (lines 172-184): build the record, dispatch it with a
    zero-duration queuing timeout, and on failure unwrap the engine error
    from the `(KafkaError, OwnedMessage)` pair, dropping the message.  The
    send outcome is supplied by the `send` oracle; the recorded dispatches
    are returned alongside the result. -/
def write_one (send : FutureRecord → Nat → Res (KafkaError × RdkafkaMessage) Unit)
    (cfg : KafkaProducerConfig) (msg : RdkafkaMessage) :
    Res KafcatError Unit × List SendCall :=
  match send (buildRecord cfg.topic msg) 0 with
  | .err (e, _m) => (.err (.fromKafka e), [⟨buildRecord cfg.topic msg, 0⟩])
  | .ok _ => (.ok (), [⟨buildRecord cfg.topic msg, 0⟩])

/-- The single-partition request list `set_offset` builds for a
    time-based lookup (`tpl_b`, lines 85-86). -/
def timeTpl (topic : String) (partition : Int) (b : Int) : List TplEntry :=
  [⟨topic, partition, .Offset b⟩]

lemma resolveOffset_time_eq (broker : Broker) (t : String) (p : Int) (b e : Int) :
    resolveOffset broker t p (.TimeInterval b e) =
      match broker.offsetsForTimes (timeTpl t p b) 1 with
      | .err ke => (.ok (.err (.fromKafka ke)), [⟨timeTpl t p b, 1⟩])
      | .ok tpl' =>
          match find_partition tpl' t p with
          | none => (.panicked, [⟨timeTpl t p b, 1⟩])
          | some entry => (.ok (.ok entry.offset), [⟨timeTpl t p b, 1⟩]) := rfl

lemma set_offset_eq (broker : Broker) (cfg : KafkaConsumerConfig)
    (st : ConsumerState) (k : KafkaOffset) :
    set_offset broker cfg st k =
      match resolveOffset broker cfg.topic (cfg.partition.getD 0) k with
      | (.panicked, calls) => ⟨st, .panicked, calls⟩
      | (.ok (.err e), calls) => ⟨st, .ok (.err e), calls⟩
      | (.ok (.ok off), calls) =>
          match broker.assignResult [⟨cfg.topic, cfg.partition.getD 0, off⟩] with
          | .err e => ⟨st, .ok (.err (.fromKafka e)), calls⟩
          | .ok _ => ⟨⟨some [⟨cfg.topic, cfg.partition.getD 0, off⟩]⟩, .ok (.ok ()), calls⟩ := rfl

lemma set_offset_state_indep (broker : Broker) (cfg : KafkaConsumerConfig)
    (k : KafkaOffset) (s s' : ConsumerState)
    (h : (set_offset broker cfg s k).result = .ok (.ok ())) :
    (set_offset broker cfg s k).state = (set_offset broker cfg s' k).state := by
  rw [set_offset_eq broker cfg s k, set_offset_eq broker cfg s' k] at *
  rcases hr : resolveOffset broker cfg.topic (cfg.partition.getD 0) k with ⟨out, calls⟩
  rw [hr] at h
  cases out with
  | panicked => simp at h
  | ok r =>
    cases r with
    | err e => simp at h
    | ok off =>
      cases ha : broker.assignResult [⟨cfg.topic, cfg.partition.getD 0, off⟩] with
      | err e => simp [ha] at h
      | ok u => simp [ha]

/- Concrete fixtures used by the witness theorems. -/

/-- A broker whose time-to-offset lookup fails (e.g. times out). -/
def brokerTimesOut : Broker := ⟨fun _ _ => .err ⟨7⟩, fun _ => .ok ()⟩

/-- A broker whose time-to-offset lookup answers the request's partition
    with offset 42. -/
def brokerResolves : Broker :=
  ⟨fun tpl _ => .ok (tpl.map fun en => ⟨en.topic, en.partition, .Offset 42⟩),
   fun _ => .ok ()⟩

/-- A broker whose time-to-offset lookup returns a response missing the
    requested partition. -/
def brokerEmptyResponse : Broker := ⟨fun _ _ => .ok [], fun _ => .ok ()⟩

def cfgExit : KafkaConsumerConfig := ⟨"g", "b", "t", some 0, true⟩

def cfgTail : KafkaConsumerConfig := ⟨"g", "b", "t", some 0, false⟩

def st0 : ConsumerState := ⟨none⟩

def emA : EngineMessage := ⟨some [1], some [2], .CreateTime 5, []⟩

def emB : EngineMessage := ⟨some [3], some [4], .CreateTime 6, []⟩

def emNoKey : EngineMessage := ⟨none, some [2], .CreateTime 5, []⟩

def emNoStamp : EngineMessage := ⟨some [1], some [2], .NotAvailable, []⟩

def emHeaders : EngineMessage := ⟨some [1], some [2], .CreateTime 5, [("h", [9])]⟩

def emNoHeaders : EngineMessage := ⟨some [1], some [2], .CreateTime 5, []⟩

def funcOk : RdkafkaMessage → Res KafcatError Unit := fun _ => .ok ()

/-- Engine activity with a 10-second idle gap before the second message:
    longer than the 3-second exit-on-done window. -/
def traceC1 : List TimedEvent := [(0, .ok emA), (10, .ok emB)]

def sendFails : FutureRecord → Nat → Res (KafkaError × RdkafkaMessage) Unit :=
  fun _ _ => .err (⟨9⟩, ⟨[], [], 0⟩)

def sendOk : FutureRecord → Nat → Res (KafkaError × RdkafkaMessage) Unit :=
  fun _ _ => .ok ()

def pcfg0 : KafkaProducerConfig := ⟨"b", "t"⟩

def msgKV : RdkafkaMessage := ⟨[107], [118], 3⟩

/-- Claim C2: resolution maps `Offset(o)` with `o ≥ 0` (the spec's
    `Absolute(n)`) to the concrete offset `o`, and `Offset(o)` with `o < 0`
    (the spec's `FromTail(n)`) to the tail-relative offset `-o - 1`, in
    both cases issuing no broker round-trip. -/
theorem absolute_and_fromtail_resolution (broker : Broker) (topic : String)
    (partition : Int) (o : Int) :
    (0 ≤ o → resolveOffset broker topic partition (.Offset o) =
      (.ok (.ok (.Offset o)), [])) ∧
    (o < 0 → resolveOffset broker topic partition (.Offset o) =
      (.ok (.ok (.OffsetTail (-o - 1))), [])) := by
  constructor
  · intro h; simp [resolveOffset, h]
  · intro h; simp [resolveOffset, not_le.mpr h]

theorem absolute_and_fromtail_resolution_witness :
    resolveOffset brokerTimesOut "t" 0 (.Offset 5) = (.ok (.ok (.Offset 5)), []) ∧
    resolveOffset brokerTimesOut "t" 0 (.Offset (-1)) =
      (.ok (.ok (.OffsetTail (-(-1) - 1))), []) :=
  ⟨(absolute_and_fromtail_resolution brokerTimesOut "t" 0 5).1 (by decide),
   (absolute_and_fromtail_resolution brokerTimesOut "t" 0 (-1)).2 (by decide)⟩

/-- Claim C5: resolution maps `Beginning`, `End` and `Stored` to the
    broker's fixed sentinel offsets and `OffsetInterval(b, _)` to the
    concrete offset `b` (ignoring the end bound), with no broker
    round-trip in any of these cases. -/
theorem symbolic_and_interval_resolution (broker : Broker) (topic : String)
    (partition : Int) (b e : Int) :
    resolveOffset broker topic partition .Beginning = (.ok (.ok .Beginning), []) ∧
    resolveOffset broker topic partition .End = (.ok (.ok .End), []) ∧
    resolveOffset broker topic partition .Stored = (.ok (.ok .Stored), []) ∧
    resolveOffset broker topic partition (.OffsetInterval b e) =
      (.ok (.ok (.Offset b)), []) :=
  ⟨rfl, rfl, rfl, rfl⟩

/-- Claim C3: resolving `TimeInterval(b, _)` issues exactly one
    offsets-for-times round-trip, scoped to the configured topic and
    partition and bounded by a 1-second timeout; on success it returns the
    partition's resolved offset, and on a failed round-trip `set_offset`
    propagates the broker error and performs no partition assignment. -/
theorem time_interval_single_roundtrip (broker : Broker)
    (cfg : KafkaConsumerConfig) (st : ConsumerState) (b e : Int) :
    (set_offset broker cfg st (.TimeInterval b e)).calls =
      [⟨timeTpl cfg.topic (cfg.partition.getD 0) b, 1⟩] ∧
    (∀ ke : KafkaError,
      broker.offsetsForTimes (timeTpl cfg.topic (cfg.partition.getD 0) b) 1 = .err ke →
      (set_offset broker cfg st (.TimeInterval b e)).result =
        .ok (.err (.fromKafka ke)) ∧
      (set_offset broker cfg st (.TimeInterval b e)).state = st) ∧
    (∀ (tpl' : List TplEntry) (entry : TplEntry),
      broker.offsetsForTimes (timeTpl cfg.topic (cfg.partition.getD 0) b) 1 = .ok tpl' →
      find_partition tpl' cfg.topic (cfg.partition.getD 0) = some entry →
      resolveOffset broker cfg.topic (cfg.partition.getD 0) (.TimeInterval b e) =
        (.ok (.ok entry.offset),
         [⟨timeTpl cfg.topic (cfg.partition.getD 0) b, 1⟩])) := by
  refine ⟨?_, ?_, ?_⟩
  · rw [set_offset_eq, resolveOffset_time_eq]
    cases hb : broker.offsetsForTimes (timeTpl cfg.topic (cfg.partition.getD 0) b) 1 with
    | err ke => simp
    | ok tpl' =>
      cases hf : find_partition tpl' cfg.topic (cfg.partition.getD 0) with
      | none => simp [hf]
      | some entry =>
        cases ha : broker.assignResult
            [⟨cfg.topic, cfg.partition.getD 0, entry.offset⟩] with
        | err e2 => simp [hf, ha]
        | ok u => simp [hf, ha]
  · intro ke hke
    rw [set_offset_eq, resolveOffset_time_eq, hke]
    simp
  · intro tpl' entry hok hfind
    rw [resolveOffset_time_eq, hok]
    simp [hfind]

theorem time_interval_single_roundtrip_witness :
    (set_offset brokerTimesOut cfgExit st0 (.TimeInterval 100 200)).calls =
      [⟨timeTpl cfgExit.topic (cfgExit.partition.getD 0) 100, 1⟩] ∧
    (set_offset brokerTimesOut cfgExit st0 (.TimeInterval 100 200)).result =
      .ok (.err (.fromKafka ⟨7⟩)) ∧
    (set_offset brokerTimesOut cfgExit st0 (.TimeInterval 100 200)).state = st0 ∧
    resolveOffset brokerResolves cfgExit.topic (cfgExit.partition.getD 0)
        (.TimeInterval 100 200) =
      (.ok (.ok (.Offset 42)),
       [⟨timeTpl cfgExit.topic (cfgExit.partition.getD 0) 100, 1⟩]) := by
  refine ⟨(time_interval_single_roundtrip brokerTimesOut cfgExit st0 100 200).1,
    ((time_interval_single_roundtrip brokerTimesOut cfgExit st0 100 200).2.1
      ⟨7⟩ (by decide)).1,
    ((time_interval_single_roundtrip brokerTimesOut cfgExit st0 100 200).2.1
      ⟨7⟩ (by decide)).2,
    (time_interval_single_roundtrip brokerResolves cfgExit st0 100 200).2.2
      [⟨"t", 0, .Offset 42⟩] ⟨"t", 0, .Offset 42⟩ (by decide) (by decide)⟩

/-- Claim C4: during time-based resolution, a response that does not
    contain the requested topic/partition makes `set_offset` panic (fail
    fast, no default offset, no assignment), while a failed round-trip
    surfaces as a propagated error instead. -/
theorem missing_partition_panics (broker : Broker)
    (cfg : KafkaConsumerConfig) (st : ConsumerState) (b e : Int) :
    (∀ tpl' : List TplEntry,
      broker.offsetsForTimes (timeTpl cfg.topic (cfg.partition.getD 0) b) 1 = .ok tpl' →
      find_partition tpl' cfg.topic (cfg.partition.getD 0) = none →
      (set_offset broker cfg st (.TimeInterval b e)).result = .panicked ∧
      (set_offset broker cfg st (.TimeInterval b e)).state = st) ∧
    (∀ ke : KafkaError,
      broker.offsetsForTimes (timeTpl cfg.topic (cfg.partition.getD 0) b) 1 = .err ke →
      (set_offset broker cfg st (.TimeInterval b e)).result =
        .ok (.err (.fromKafka ke))) := by
  constructor
  · intro tpl' hok hmiss
    rw [set_offset_eq, resolveOffset_time_eq, hok]
    simp [hmiss]
  · intro ke hke
    rw [set_offset_eq, resolveOffset_time_eq, hke]

theorem missing_partition_panics_witness :
    (set_offset brokerEmptyResponse cfgExit st0 (.TimeInterval 100 200)).result =
      .panicked ∧
    (set_offset brokerEmptyResponse cfgExit st0 (.TimeInterval 100 200)).state = st0 ∧
    (set_offset brokerTimesOut cfgExit st0 (.TimeInterval 100 200)).result =
      .ok (.err (.fromKafka ⟨7⟩)) :=
  ⟨((missing_partition_panics brokerEmptyResponse cfgExit st0 100 200).1
      [] (by decide) (by decide)).1,
   ((missing_partition_panics brokerEmptyResponse cfgExit st0 100 200).1
      [] (by decide) (by decide)).2,
   (missing_partition_panics brokerTimesOut cfgExit st0 100 200).2 ⟨7⟩ (by decide)⟩

/-- Claim C7: a second `set_offset` call replaces the prior partition
    assignment rather than accumulating: when the second call succeeds,
    the broker-side state after two consecutive calls equals the state
    produced by the second call alone. -/
theorem set_offset_replaces_assignment (broker : Broker)
    (cfg : KafkaConsumerConfig) (st : ConsumerState) (k1 k2 : KafkaOffset)
    (h : (set_offset broker cfg (set_offset broker cfg st k1).state k2).result =
      .ok (.ok ())) :
    (set_offset broker cfg (set_offset broker cfg st k1).state k2).state =
      (set_offset broker cfg st k2).state :=
  set_offset_state_indep broker cfg k2 _ st h

theorem set_offset_replaces_assignment_witness :
    (set_offset brokerTimesOut cfgExit
        (set_offset brokerTimesOut cfgExit st0 .Beginning).state .End).state =
      (set_offset brokerTimesOut cfgExit st0 .End).state :=
  set_offset_replaces_assignment brokerTimesOut cfgExit st0 .Beginning .End
    (by decide)

/-- Claim C6: `write_one` attaches the key only when non-empty and the
    payload only when non-empty (empty means absent), addresses the record
    to the configured topic, dispatches exactly one send with a
    zero-duration local queuing timeout, and on failure unwraps the engine
    error from the partially-sent-message pair and propagates it as the
    system error type. -/
theorem write_one_record_shape
    (send : FutureRecord → Nat → Res (KafkaError × RdkafkaMessage) Unit)
    (cfg : KafkaProducerConfig) (msg : RdkafkaMessage) :
    (buildRecord cfg.topic msg).topic = cfg.topic ∧
    (buildRecord cfg.topic msg).key =
      (if msg.get_key = [] then none else some msg.get_key) ∧
    (buildRecord cfg.topic msg).payload =
      (if msg.get_payload = [] then none else some msg.get_payload) ∧
    (write_one send cfg msg).2 = [⟨buildRecord cfg.topic msg, 0⟩] ∧
    (∀ (e : KafkaError) (m' : RdkafkaMessage),
      send (buildRecord cfg.topic msg) 0 = .err (e, m') →
      (write_one send cfg msg).1 = .err (.fromKafka e)) ∧
    (send (buildRecord cfg.topic msg) 0 = .ok () →
      (write_one send cfg msg).1 = .ok ()) := by
  refine ⟨?_, ?_, ?_, ?_, ?_, ?_⟩
  · by_cases hk : msg.get_key = [] <;> by_cases hp : msg.get_payload = [] <;>
      simp [buildRecord, hk, hp, List.length_pos]
  · by_cases hk : msg.get_key = [] <;> by_cases hp : msg.get_payload = [] <;>
      simp [buildRecord, hk, hp, List.length_pos]
  · by_cases hk : msg.get_key = [] <;> by_cases hp : msg.get_payload = [] <;>
      simp [buildRecord, hk, hp, List.length_pos]
  · cases hs : send (buildRecord cfg.topic msg) 0 with
    | ok u => simp [write_one, hs]
    | err p => simp [write_one, hs]
  · intro e m' hs
    simp [write_one, hs]
  · intro hs
    simp [write_one, hs]

theorem write_one_record_shape_witness :
    (buildRecord pcfg0.topic msgKV).key =
      (if msgKV.get_key = [] then none else some msgKV.get_key) ∧
    (write_one sendFails pcfg0 msgKV).1 = .err (.fromKafka ⟨9⟩) ∧
    (write_one sendOk pcfg0 msgKV).1 = .ok () :=
  ⟨(write_one_record_shape sendFails pcfg0 msgKV).2.1,
   (write_one_record_shape sendFails pcfg0 msgKV).2.2.2.2.1
     ⟨9⟩ ⟨[], [], 0⟩ (by decide),
   (write_one_record_shape sendOk pcfg0 msgKV).2.2.2.2.2 (by decide)⟩

/-- Claim C8 counterexample: two engine messages that differ only in their
    headers are mapped by the consumption pipeline to the very same
    system message, so the produced `RdkafkaMessage` does not carry a
    headers field of any kind. -/
theorem message_headers_not_carried_cex :
    emHeaders.headers ≠ emNoHeaders.headers ∧
    process emHeaders = process emNoHeaders ∧
    process emHeaders = .ok ⟨[1], [2], 5⟩ := by decide

/-- Claim C8 (amended): the message model produced by the consumption
    pipeline consists of exactly a key (bytes), a payload (bytes) and a
    timestamp (int64 epoch millis); engine headers are not carried, so
    `process` depends only on those three engine fields. -/
theorem message_model_three_fields (m1 m2 : EngineMessage)
    (hk : m1.key = m2.key) (hp : m1.payload = m2.payload)
    (ht : m1.timestamp = m2.timestamp) :
    process m1 = process m2 ∧
    (∀ msg : RdkafkaMessage,
      msg = ⟨msg.get_key, msg.get_payload, msg.get_timestamp⟩) :=
  ⟨by simp [process, hk, hp, ht], fun msg => rfl⟩

theorem message_model_three_fields_witness :
    process emHeaders = process emHeaders ∧
    (∀ msg : RdkafkaMessage,
      msg = ⟨msg.get_key, msg.get_payload, msg.get_timestamp⟩) :=
  message_model_three_fields emHeaders emHeaders rfl rfl rfl

/-- Claim C9: the consumption pipeline converts an engine-level absent key
    or payload into the empty byte buffer, so an absent key is
    indistinguishable from a zero-length key, and `get_key`/`get_payload`
    of a produced message always return the byte buffer (`getD []` of the
    engine's optional field). -/
theorem absent_key_payload_empty (m : EngineMessage) :
    process { m with key := none } = process { m with key := some [] } ∧
    process { m with payload := none } = process { m with payload := some [] } ∧
    (∀ msg : RdkafkaMessage, process m = .ok msg →
      msg.get_key = m.key.getD [] ∧ msg.get_payload = m.payload.getD []) := by
  refine ⟨?_, ?_, ?_⟩
  · cases ht : m.timestamp.to_millis <;> simp [process, ht]
  · cases ht : m.timestamp.to_millis <;> simp [process, ht]
  · intro msg h
    unfold process at h
    cases ht : m.timestamp.to_millis with
    | none => rw [ht] at h; simp at h
    | some ts =>
      rw [ht] at h
      cases h
      exact ⟨rfl, rfl⟩

theorem absent_key_payload_empty_witness :
    process { emNoKey with key := none } = process { emNoKey with key := some [] } ∧
    RdkafkaMessage.get_key ⟨[], [2], 5⟩ = emNoKey.key.getD [] :=
  ⟨(absent_key_payload_empty emNoKey).1,
   ((absent_key_payload_empty emNoKey).2.2 ⟨[], [2], 5⟩ (by decide)).1⟩

/-- Claim C10: converting an engine message whose timestamp is unavailable
    panics (the `to_millis().unwrap()`), both in `stream()`'s item mapping
    and in `for_each`'s loop, instead of yielding an error item in the
    stream's `Result` type. -/
theorem timestamp_unavailable_panics (m : EngineMessage)
    (h : m.timestamp = .NotAvailable) (gap : Nat) (rest : List TimedEvent)
    (func : RdkafkaMessage → Res KafcatError Unit) :
    process m = .panicked ∧
    streamItems ((gap, .ok m) :: rest) = .panicked ∧
    runForEach func ((gap, .ok m) :: rest) = .panicked := by
  have hp : process m = .panicked := by simp [process, h, Timestamp.to_millis]
  refine ⟨hp, ?_, ?_⟩
  · simp [streamItems, hp]
  · simp [runForEach, hp]

theorem timestamp_unavailable_panics_witness :
    process emNoStamp = .panicked ∧
    streamItems [(0, .ok emNoStamp)] = .panicked ∧
    runForEach funcOk [(0, .ok emNoStamp)] = .panicked :=
  timestamp_unavailable_panics emNoStamp rfl 0 [] funcOk

/-- Claim C1 counterexample: with `exitOnDone = true` the claim predicts
    that `stream()` ends (as a success) once no message arrives within the
    3-second idle window; on the concrete trace with a 10-second gap the
    items `stream()` actually yields are not the idle-timeout-cut items -
    the second message, past the idle window, is still yielded. -/
theorem stream_ignores_idle_timeout_cex :
    streamItems traceC1 ≠ streamItemsClaimed 3 traceC1 ∧
    streamItems traceC1 = .ok [.ok ⟨[1], [2], 5⟩, .ok ⟨[3], [4], 6⟩] ∧
    streamItemsClaimed 3 traceC1 = .ok [.ok ⟨[1], [2], 5⟩] := by decide

/-- Claim C1 (amended): only `for_each` subjects each underlying poll to
    an idle timeout - 3 seconds when `exit_on_done` is set, 1 hour
    otherwise - and idle-timeout expiry terminates it as a success, while
    within the window it terminates on the underlying connection error;
    `stream()` applies no idle timeout: its items are independent of the
    idle gaps between engine events. -/
theorem idle_timeout_policy_amended (cfg : KafkaConsumerConfig)
    (gap : Nat) (item : Res KafkaError EngineMessage) (rest : List TimedEvent)
    (func : RdkafkaMessage → Res KafcatError Unit)
    (g g' : Nat) (x : Res KafkaError EngineMessage) (tail : List TimedEvent) :
    (cfg.exit_on_done = true → gap > 3 →
      for_each cfg ((gap, item) :: rest) func = .ok (.ok ())) ∧
    (cfg.exit_on_done = false → gap > 3600 →
      for_each cfg ((gap, item) :: rest) func = .ok (.ok ())) ∧
    (∀ e : KafkaError, cfg.exit_on_done = false → gap ≤ 3600 →
      for_each cfg ((gap, .err e) :: rest) func = .ok (.err (process_err e))) ∧
    streamItems ((g, x) :: tail) = streamItems ((g', x) :: tail) := by
  refine ⟨?_, ?_, ?_, ?_⟩
  · intro hc hgap
    simp [for_each, hc, applyIdleTimeout, hgap, runForEach]
  · intro hc hgap
    simp [for_each, hc, applyIdleTimeout, hgap, runForEach]
  · intro e hc hgap
    simp [for_each, hc, applyIdleTimeout, Nat.not_lt.mpr hgap, runForEach]
  · cases x <;> rfl

theorem idle_timeout_policy_amended_witness :
    for_each cfgExit [(4, .ok emA)] funcOk = .ok (.ok ()) ∧
    for_each cfgTail [(4000, .ok emA)] funcOk = .ok (.ok ()) ∧
    for_each cfgTail [(4, .err ⟨7⟩)] funcOk = .ok (.err (process_err ⟨7⟩)) :=
  ⟨(idle_timeout_policy_amended cfgExit 4 (.ok emA) [] funcOk 0 0 (.ok emA) []).1
     rfl (by decide),
   (idle_timeout_policy_amended cfgTail 4000 (.ok emA) [] funcOk 0 0 (.ok emA) []).2.1
     rfl (by decide),
   (idle_timeout_policy_amended cfgTail 4 (.err ⟨7⟩) [] funcOk 0 0 (.ok emA) []).2.2.1
     ⟨7⟩ rfl (by decide)⟩

end Kafcat
